import Mathlib

/-!
Shallow embedding of `browser/find_in_page_view.cc` (the Chrome "Find in
Page" toolbar view, `FindInPageView`), together with theorems checking the
natural-language specification of the file against the code.

The embedding models the panel's result-tracking state
(`match_count_`, `active_match_ordinal_`, the text of the search box and of
the match-count label, the label's colors, the enabled state of the
previous/next buttons) and its operations `UpdateMatchCount`,
`UpdateActiveMatchOrdinal`, `UpdateResultLabel` and `ContentsChanged`,
plus the pixel arithmetic of `Layout` / `GetPreferredSize`.
Calls into the external `FindInPageController` are recorded as an explicit
event list; `MessageBeep` calls are counted.
-/

namespace FindInPageView

/-- An RGB color, standing in for Skia's `SkColor`. -/
abbrev SkColor : Type := Nat × Nat × Nat

def SkColorSetRGB (r g b : Nat) : SkColor := (r, g, b)

def SK_ColorBLACK : SkColor := (0, 0, 0)

/-! Constants from the top of `find_in_page_view.cc`. -/

/-- The amount of whitespace to have before the find button. -/
def kWhiteSpaceAfterMatchCountLabel : Int := 3

/-- The margins around the search field and the close button. -/
def kMarginLeftOfCloseButton : Int := 5

def kMarginRightOfCloseButton : Int := 5

def kMarginLeftOfFindTextField : Int := 12

/-- Extra width added around the match count label so that the background
highlight extends beyond just the text. -/
def kMatchCountExtraWidth : Int := 9

/-- Minimum width for the match count label. -/
def kMatchCountMinWidth : Int := 30

/-- The text color for the match count label. -/
def kTextColorMatchCount : SkColor := SkColorSetRGB 178 178 178

/-- The text color for the match count label when no matches are found. -/
def kTextColorNoMatch : SkColor := SK_ColorBLACK

/-- The background color of the match count label when results are found. -/
def kBackgroundColorMatch : SkColor := SkColorSetRGB 255 255 255

/-- The background color of the match count label when no results are found. -/
def kBackgroundColorNoMatch : SkColor := SkColorSetRGB 255 102 102

/-- Helper `IntToWString` from `base/string_util.h`, specialised to the decimal
rendering of an `int`. -/
def IntToWString (i : Int) : String := toString i

/-- Modelled from the spec: the localized `IDS_FIND_IN_PAGE_COUNT` format
string used by `l10n_util::GetStringF` — the resource table that defines it
(`generated_resources`) is outside this repository.  The spec describes the
rendering as "`ordinal` of `matchCount`". -/
def GetStringF_FIND_IN_PAGE_COUNT (ordinal countStr : String) : String :=
  ordinal ++ " of " ++ countStr

/-- The result-tracking state of the `FindInPageView` panel.

* `match_count_`, `active_match_ordinal_` are the integer fields of the view.
* `searchText` is the contents of the `find_text_` text field
  (`find_text_->GetText()`).
* `labelText` is the text of the `match_count_text_` label.
* `labelBackground` is the solid background installed on the label by
  `SetBackground` (`none` until the first `SetBackground` call, as at
  construction).
* `labelColor` is the label's text color (`SetColor`).
* `prevEnabled` / `nextEnabled` mirror `SetEnabled` on
  `find_previous_button_` / `find_next_button_`.
* `beeps` counts the `MessageBeep(MB_OK)` calls made so far. -/
structure PanelState where
  match_count_ : Int
  active_match_ordinal_ : Int
  searchText : String
  labelText : String
  labelBackground : Option SkColor
  labelColor : SkColor
  prevEnabled : Bool
  nextEnabled : Bool
  beeps : Nat
deriving DecidableEq, Repr

/-- The state established by the constructor `FindInPageView::FindInPageView`:
`match_count_(-1)`, `active_match_ordinal_(-1)`, a fresh empty text field and
label, the label's color set to `kTextColorMatchCount`, and both navigation
buttons explicitly disabled (`SetEnabled(false)`). -/
def initState : PanelState :=
  { match_count_ := -1
    active_match_ordinal_ := -1
    searchText := ""
    labelText := ""
    labelBackground := none
    labelColor := kTextColorMatchCount
    prevEnabled := false
    nextEnabled := false
    beeps := 0 }

/-- Embedding of `FindInPageView::ResetMatchCountBackground`. -/
def ResetMatchCountBackground (s : PanelState) : PanelState :=
  { s with labelBackground := some kBackgroundColorMatch
           labelColor := kTextColorMatchCount }

/-- Embedding of `FindInPageView::ResetMatchCount`: clear the label text, then reset the
label background. -/
def ResetMatchCount (s : PanelState) : PanelState :=
  ResetMatchCountBackground { s with labelText := "" }

/-- Embedding of `FindInPageView::UpdateMatchCount(int number_of_matches, bool
final_update)`. -/
def UpdateMatchCount (s : PanelState) (number_of_matches : Int)
    (final_update : Bool) : PanelState :=
  if number_of_matches < 0 then
    -- We ignore -1 sent during FindNext operations.
    s
  else if 0 < s.match_count_ ∧ number_of_matches = 1 ∧ final_update = false then
    -- Do not overwrite a previously recorded match count with a
    -- preliminary number of 1.
    s
  else
    let s1 := if number_of_matches = 0 then
                { s with active_match_ordinal_ := 0 }
              else s
    let s2 := { s1 with match_count_ := number_of_matches }
    if s2.searchText.isEmpty = true ∨ 0 < number_of_matches then
      ResetMatchCountBackground s2
    else
      { s2 with labelBackground := some kBackgroundColorNoMatch
                labelColor := kTextColorNoMatch
                beeps := s2.beeps + 1 }

/-- Embedding of `FindInPageView::UpdateActiveMatchOrdinal(int ordinal)`. -/
def UpdateActiveMatchOrdinal (s : PanelState) (ordinal : Int) : PanelState :=
  if 0 ≤ ordinal then { s with active_match_ordinal_ := ordinal } else s

/-- Embedding of `FindInPageView::UpdateResultLabel`.  (The trailing `Layout()` call only
touches the geometry, which is modelled separately below.) -/
def UpdateResultLabel (s : PanelState) : PanelState :=
  let search_string := s.searchText
  let s1 :=
    if 0 < search_string.length then
      { s with labelText := (GetStringF_FIND_IN_PAGE_COUNT
          (IntToWString s.active_match_ordinal_)
          (IntToWString s.match_count_)) }
    else
      ResetMatchCount s
  { s1 with prevEnabled := decide (0 < s1.match_count_)
            nextEnabled := decide (0 < s1.match_count_) }

/-- A call made on the external `FindInPageController`. -/
inductive ControllerCall where
  | setFindString (text : String)
  | startFinding (forward : Bool)
  | stopFinding (clearSelection : Bool)
  | endFindSession
deriving DecidableEq, Repr

/-- Embedding of `FindInPageView::ContentsChanged(views::TextField* sender, const
std::wstring& new_contents)`.  The text field already holds `new_contents`
when the handler runs, so the mirrored `searchText` is updated first; the
returned list records the calls made on `controller_`, in order. -/
def ContentsChanged (s : PanelState) (new_contents : String) :
    PanelState × List ControllerCall :=
  let s0 := { s with searchText := new_contents }
  if 0 < new_contents.length then
    (s0, [ControllerCall.setFindString new_contents,
          ControllerCall.startFinding true])
  else
    -- The textbox is empty so we reset.
    let s1 := UpdateMatchCount s0 0 true    -- true = final update.
    let s2 := UpdateResultLabel s1
    (s2, [ControllerCall.stopFinding true,  -- true = clear selection on page.
          ControllerCall.setFindString ""])

/-- One of the panel operations named by the spec's invariants. -/
inductive PanelOp where
  | updateMatchCount (n : Int) (finalUpdate : Bool)
  | updateActiveMatchOrdinal (n : Int)
  | updateResultLabel
  | contentsChanged (t : String)
deriving DecidableEq, Repr

def applyOp (s : PanelState) : PanelOp → PanelState
  | .updateMatchCount n f => UpdateMatchCount s n f
  | .updateActiveMatchOrdinal n => UpdateActiveMatchOrdinal s n
  | .updateResultLabel => UpdateResultLabel s
  | .contentsChanged t => (ContentsChanged s t).1

/-- The state reached from the freshly constructed panel by a sequence of
operations. -/
def runOps (ops : List PanelOp) : PanelState :=
  ops.foldl applyOp initState

/-- Recognises the `UpdateMatchCount` operations. -/
def isMatchCountOp : PanelOp → Bool
  | .updateMatchCount _ _ => true
  | _ => false


/-! Geometry: the embedding of `Layout` and `GetPreferredSize`. -/

/-- A control's bounds, as set by `views::View::SetBounds(x, y, w, h)`. -/
structure Rect where
  x : Int
  y : Int
  w : Int
  h : Int
deriving DecidableEq, Repr

/-- A `gfx::Size`. -/
structure PrefSize where
  w : Int
  h : Int
deriving DecidableEq, Repr

/-- The toolkit data read by `Layout` and `GetPreferredSize`: the panel's
current height (`height()`), the preferred size reported by each child
control (`GetPreferredSize()`), and the height of the middle background
bitmap (`kDlgBackground_middle->height()`). -/
structure LayoutEnv where
  panelHeight : Int
  findTextPref : PrefSize
  matchCountTextPref : PrefSize
  findPrevPref : PrefSize
  findNextPref : PrefSize
  closePref : PrefSize
  dlgMiddleHeight : Int
deriving DecidableEq, Repr

/-- The current bounds of the six child views of the panel. -/
structure PanelGeometry where
  closeBtn : Rect
  nextBtn : Rect
  prevBtn : Rect
  matchCountLabel : Rect
  findTextBox : Rect
  focusForwarder : Rect
deriving DecidableEq, Repr

/-- Embedding of `FindInPageView::GetPreferredSize`: the preferred size of the find text
field, its height replaced by the middle background bitmap's height, enlarged
by the three fixed margins and the preferred widths of the three buttons.
(The match-count label's width is not part of the sum.) -/
def GetPreferredSize (env : LayoutEnv) : PrefSize :=
  { w := env.findTextPref.w +
           (kMarginLeftOfCloseButton + kMarginRightOfCloseButton +
             kMarginLeftOfFindTextField) +
           env.findPrevPref.w + env.findNextPref.w + env.closePref.w
    h := env.dlgMiddleHeight }

/-- Embedding of `FindInPageView::Layout`.  All divisions are C++ `int` divisions
(truncation towards zero, `Int.tdiv`).  Note that the x coordinates of the
find-next and find-previous buttons are computed from those buttons' *current*
widths (`find_next_button_->width()`, `find_previous_button_->width()`), read
from `g`, while every `SetBounds` call installs the *preferred* width. -/
def Layout (env : LayoutEnv) (g : PanelGeometry) : PanelGeometry :=
  let panel_size := GetPreferredSize env
  -- First we draw the close button on the far right.
  let closeR : Rect :=
    { x := panel_size.w - env.closePref.w - kMarginRightOfCloseButton
      y := (env.panelHeight - env.closePref.h).tdiv 2
      w := env.closePref.w
      h := env.closePref.h }
  -- Next, the FindNext button to the left of the close button.
  let nextR : Rect :=
    { x := closeR.x - g.nextBtn.w - kMarginLeftOfCloseButton
      y := (env.panelHeight - env.findNextPref.h).tdiv 2
      w := env.findNextPref.w
      h := env.findNextPref.h }
  -- Then, the FindPrevious button to the left of the FindNext button.
  let prevR : Rect :=
    { x := nextR.x - g.prevBtn.w
      y := (env.panelHeight - env.findPrevPref.h).tdiv 2
      w := env.findPrevPref.w
      h := env.findPrevPref.h }
  -- Then the label showing the match count number, enlarged by
  -- kMatchCountExtraWidth and clamped below by kMatchCountMinWidth.
  let labelW := max kMatchCountMinWidth
                  (env.matchCountTextPref.w + kMatchCountExtraWidth)
  let labelR : Rect :=
    { x := prevR.x - kWhiteSpaceAfterMatchCountLabel - labelW
      y := (env.panelHeight - env.matchCountTextPref.h).tdiv 2 + 1
      w := labelW
      h := env.matchCountTextPref.h }
  -- And whatever space is left in between is filled up by the find edit box.
  let textW := labelR.x - kMarginLeftOfFindTextField
  let textR : Rect :=
    { x := labelR.x - textW
      y := (env.panelHeight - env.findTextPref.h).tdiv 2 + 1
      w := textW
      h := env.findTextPref.h }
  -- The focus forwarder view covers the area between the find text box and
  -- the find-previous button.
  let find_text_edge := textR.x + textR.w
  let fwdR : Rect :=
    { x := find_text_edge
      y := prevR.y
      w := prevR.x - find_text_edge
      h := prevR.h }
  { closeBtn := closeR
    nextBtn := nextR
    prevBtn := prevR
    matchCountLabel := labelR
    findTextBox := textR
    focusForwarder := fwdR }

/-- The width `Layout` gives the match-count label. -/
def layoutLabelWidth (env : LayoutEnv) : Int :=
  max kMatchCountMinWidth (env.matchCountTextPref.w + kMatchCountExtraWidth)

/-- The sum of the minimum widths of the five visible children plus all the
fixed horizontal margins between them (the text input itself has minimum
width 0: it absorbs whatever slack is left). -/
def sumOfMinWidths (env : LayoutEnv) : Int :=
  layoutLabelWidth env + env.findPrevPref.w + env.findNextPref.w +
    env.closePref.w +
    (kMarginLeftOfFindTextField + kWhiteSpaceAfterMatchCountLabel +
      kMarginLeftOfCloseButton + kMarginRightOfCloseButton)

/-- Horizontal containment of a rect in a panel of width `W`. -/
def insideH (r : Rect) (W : Int) : Prop := 0 <= r.x /\ r.x + r.w <= W

/-- Vertical containment of a rect in a panel of height `H`. -/
def insideV (r : Rect) (H : Int) : Prop := 0 <= r.y /\ r.y + r.h <= H

/-- Containment of a rect in the panel's bounds. -/
def insidePanel (r : Rect) (W H : Int) : Prop := insideH r W /\ insideV r H


/-! Theorems checking the specification. -/

/-- C10: Immediately after construction, the panel's `match_count_` is -1 and
its `active_match_ordinal_` is -1 (not 0), and both the previous and next
buttons are disabled; the initial ordinal therefore lies outside the spec's
stated range ("1-based index; 0 when no matches") until the first accepted
update. -/
theorem construction_initial_state :
    initState.match_count_ = -1 ∧ initState.active_match_ordinal_ = -1 ∧
    initState.prevEnabled = false ∧ initState.nextEnabled = false ∧
    ¬(initState.active_match_ordinal_ = 0 ∨
        1 ≤ initState.active_match_ordinal_) := by
  decide

/-- C1: From any state with a recorded `match_count_ > 0`,
`UpdateMatchCount(1, false)` leaves `match_count_` unchanged (the provisional
"1" is suppressed), while `UpdateMatchCount(1, true)` stores 1. -/
theorem updateMatchCount_suppresses_provisional_one (s : PanelState)
    (h : 0 < s.match_count_) :
    (UpdateMatchCount s 1 false).match_count_ = s.match_count_ ∧
    (UpdateMatchCount s 1 true).match_count_ = 1 := by
  constructor
  · unfold UpdateMatchCount
    rw [if_neg (by omega), if_pos ⟨h, rfl, rfl⟩]
  · unfold UpdateMatchCount
    rw [if_neg (by omega), if_neg (by simp)]
    split <;> simp [ResetMatchCountBackground]

/-- A prior state with `match_count_ = 5`, as in the spec's example. -/
def stateWithFiveMatches : PanelState := { initState with match_count_ := 5 }

theorem updateMatchCount_suppresses_provisional_one_witness :
    0 < stateWithFiveMatches.match_count_ ∧
    ((UpdateMatchCount stateWithFiveMatches 1 false).match_count_ =
        stateWithFiveMatches.match_count_ ∧
      (UpdateMatchCount stateWithFiveMatches 1 true).match_count_ = 1) :=
  ⟨by decide,
    updateMatchCount_suppresses_provisional_one stateWithFiveMatches
      (by decide)⟩

/-- C3: `UpdateMatchCount` with a negative count is a complete no-op (the
whole state — match count, ordinal, label text, label style and button
enablement — is unchanged); `UpdateActiveMatchOrdinal` ignores negative
ordinals and stores non-negative ones. -/
theorem negative_updates_are_ignored (s : PanelState) (n : Int) (f : Bool)
    (m : Int) :
    (n < 0 → UpdateMatchCount s n f = s) ∧
    (m < 0 → UpdateActiveMatchOrdinal s m = s) ∧
    (0 ≤ m →
      UpdateActiveMatchOrdinal s m = { s with active_match_ordinal_ := m }) := by
  refine ⟨fun h => ?_, fun h => ?_, fun h => ?_⟩
  · unfold UpdateMatchCount
    rw [if_pos h]
  · unfold UpdateActiveMatchOrdinal
    rw [if_neg (by omega)]
  · unfold UpdateActiveMatchOrdinal
    rw [if_pos h]

theorem negative_updates_are_ignored_witness :
    ((-1 : Int) < 0 ∧ UpdateMatchCount initState (-1) false = initState) ∧
    (UpdateActiveMatchOrdinal initState (-1) = initState) ∧
    ((0 : Int) ≤ 7 ∧
      UpdateActiveMatchOrdinal initState 7 =
        { initState with active_match_ordinal_ := 7 }) :=
  ⟨⟨by decide,
      (negative_updates_are_ignored initState (-1) false (-1)).1 (by decide)⟩,
    (negative_updates_are_ignored initState 0 false (-1)).2.1 (by decide),
    ⟨by decide,
      (negative_updates_are_ignored initState 0 false 7).2.2 (by decide)⟩⟩

/-- C9: After `Layout`, the match-count label's width equals the maximum of
its preferred text width plus the fixed extra padding and the fixed minimum
width; in particular it is never below `kMatchCountMinWidth`. -/
theorem layout_label_width_clamped (env : LayoutEnv) (g : PanelGeometry) :
    (Layout env g).matchCountLabel.w =
      max (env.matchCountTextPref.w + kMatchCountExtraWidth)
        kMatchCountMinWidth ∧
    kMatchCountMinWidth ≤ (Layout env g).matchCountLabel.w := by
  constructor
  · simp only [Layout]
    exact max_comm _ _
  · simp only [Layout]
    exact le_max_left _ _


/-! Helper lemmas. -/

theorem length_pos_of_ne_empty (t : String) (h : t ≠ "") : 0 < t.length := by
  rcases t with ⟨l⟩
  cases l with
  | nil => exact absurd rfl h
  | cons a l => simp [String.length]

/-- Characterization of `UpdateResultLabel` as a single record update. -/
theorem updateResultLabel_eq (s : PanelState) :
    UpdateResultLabel s =
      if 0 < s.searchText.length then
        { s with
            labelText := (GetStringF_FIND_IN_PAGE_COUNT
              (IntToWString s.active_match_ordinal_)
              (IntToWString s.match_count_))
            prevEnabled := decide (0 < s.match_count_)
            nextEnabled := decide (0 < s.match_count_) }
      else
        { s with
            labelText := ""
            labelBackground := some kBackgroundColorMatch
            labelColor := kTextColorMatchCount
            prevEnabled := decide (0 < s.match_count_)
            nextEnabled := decide (0 < s.match_count_) } := by
  simp only [UpdateResultLabel, ResetMatchCount, ResetMatchCountBackground]
  split <;> rfl

/-- Lemma: `UpdateResultLabel` never changes the stored match count. -/
theorem updateResultLabel_match_count (s : PanelState) :
    (UpdateResultLabel s).match_count_ = s.match_count_ := by
  rw [updateResultLabel_eq]
  split <;> rfl

/-- Lemma: `UpdateResultLabel` sets both navigation buttons from the stored match
count. -/
theorem updateResultLabel_buttons (s : PanelState) :
    (UpdateResultLabel s).prevEnabled = decide (0 < s.match_count_) ∧
    (UpdateResultLabel s).nextEnabled = decide (0 < s.match_count_) := by
  rw [updateResultLabel_eq]
  split <;> exact ⟨rfl, rfl⟩

/-- Characterization of an accepted `UpdateMatchCount` as a single record
update. -/
theorem updateMatchCount_accepted_eq (s : PanelState) (n : Int) (f : Bool)
    (h0 : ¬n < 0) (h1 : ¬(0 < s.match_count_ ∧ n = 1 ∧ f = false)) :
    UpdateMatchCount s n f =
      if s.searchText.isEmpty = true ∨ 0 < n then
        { s with
            match_count_ := n
            active_match_ordinal_ :=
              (if n = 0 then 0 else s.active_match_ordinal_)
            labelBackground := some kBackgroundColorMatch
            labelColor := kTextColorMatchCount }
      else
        { s with
            match_count_ := n
            active_match_ordinal_ :=
              (if n = 0 then 0 else s.active_match_ordinal_)
            labelBackground := some kBackgroundColorNoMatch
            labelColor := kTextColorNoMatch
            beeps := s.beeps + 1 } := by
  simp only [UpdateMatchCount, ResetMatchCountBackground, if_neg h0, if_neg h1]
  split <;> split <;> rfl

/-- Unfolding `ContentsChanged` on the empty string. -/
theorem contentsChanged_empty (s : PanelState) :
    ContentsChanged s "" =
      (UpdateResultLabel (UpdateMatchCount { s with searchText := "" } 0 true),
        [ControllerCall.stopFinding true, ControllerCall.setFindString ""]) := by
  unfold ContentsChanged
  rw [if_neg (by decide)]

/-- Unfolding `ContentsChanged` on a non-empty string. -/
theorem contentsChanged_nonempty (s : PanelState) (t : String) (h : t ≠ "") :
    ContentsChanged s t =
      ({ s with searchText := t },
        [ControllerCall.setFindString t, ControllerCall.startFinding true]) := by
  unfold ContentsChanged
  rw [if_pos (length_pos_of_ne_empty t h)]

/-- Neither branch of `UpdateMatchCount` touches the buttons. -/
theorem updateMatchCount_buttons (s : PanelState) (n : Int) (f : Bool) :
    (UpdateMatchCount s n f).prevEnabled = s.prevEnabled ∧
    (UpdateMatchCount s n f).nextEnabled = s.nextEnabled := by
  by_cases h0 : n < 0
  · simp [UpdateMatchCount, if_pos h0]
  by_cases h1 : 0 < s.match_count_ ∧ n = 1 ∧ f = false
  · simp [UpdateMatchCount, if_neg h0, if_pos h1]
  rw [updateMatchCount_accepted_eq s n f h0 h1]
  split <;> exact ⟨rfl, rfl⟩

/-- Lemma: `UpdateActiveMatchOrdinal` never touches the buttons. -/
theorem updateActiveMatchOrdinal_buttons (s : PanelState) (m : Int) :
    (UpdateActiveMatchOrdinal s m).prevEnabled = s.prevEnabled ∧
    (UpdateActiveMatchOrdinal s m).nextEnabled = s.nextEnabled := by
  unfold UpdateActiveMatchOrdinal
  split <;> exact ⟨rfl, rfl⟩

/-- The invariant "a stored match count of 0 forces the ordinal to 0". -/
def mcInv (s : PanelState) : Prop :=
  s.match_count_ = 0 → s.active_match_ordinal_ = 0

/-- Lemma: `UpdateMatchCount` preserves `mcInv`: whenever it stores the count 0 it
also resets the ordinal to 0, and whenever it stores a non-zero count the
hypothesis of the invariant is false. -/
theorem updateMatchCount_preserves_mcInv (s : PanelState) (n : Int) (f : Bool)
    (h : mcInv s) : mcInv (UpdateMatchCount s n f) := by
  unfold mcInv at *
  by_cases h0 : n < 0
  · simp only [UpdateMatchCount, if_pos h0]
    exact h
  by_cases h1 : 0 < s.match_count_ ∧ n = 1 ∧ f = false
  · simp only [UpdateMatchCount, if_neg h0, if_pos h1]
    exact h
  rw [updateMatchCount_accepted_eq s n f h0 h1]
  split <;> intro hz <;> simp_all

/-- C2 counterexample: the two-operation sequence `UpdateMatchCount(0, true)`
then `UpdateActiveMatchOrdinal(2)` — both among the operations named by the
claim — reaches a state with `match_count_ = 0` but
`active_match_ordinal_ = 2`: `UpdateActiveMatchOrdinal` accepts any
non-negative ordinal without re-checking the stored match count. -/
theorem ordinal_escapes_zero_matchCount :
    (runOps [PanelOp.updateMatchCount 0 true,
        PanelOp.updateActiveMatchOrdinal 2]).match_count_ = 0 ∧
    (runOps [PanelOp.updateMatchCount 0 true,
        PanelOp.updateActiveMatchOrdinal 2]).active_match_ordinal_ ≠ 0 := by
  decide

/-- C2 (amended): in every state reachable from the initial panel state by a
sequence of `UpdateMatchCount` calls alone, `match_count_ = 0` implies
`active_match_ordinal_ = 0`. -/
theorem matchCount_zero_forces_ordinal_zero (ops : List PanelOp)
    (h : ops.all isMatchCountOp = true) :
    (runOps ops).match_count_ = 0 → (runOps ops).active_match_ordinal_ = 0 := by
  suffices H : ∀ (l : List PanelOp) (t : PanelState),
      l.all isMatchCountOp = true → mcInv t → mcInv (l.foldl applyOp t) by
    exact H ops initState h (by intro h0; simp [initState] at h0)
  intro l
  induction l with
  | nil => exact fun t _ ht => ht
  | cons op l ih =>
    intro t hall ht
    rw [List.all_cons, Bool.and_eq_true] at hall
    cases op with
    | updateMatchCount n f =>
      exact ih _ hall.2 (updateMatchCount_preserves_mcInv t n f ht)
    | updateActiveMatchOrdinal n => simp [isMatchCountOp] at hall
    | updateResultLabel => simp [isMatchCountOp] at hall
    | contentsChanged t0 => simp [isMatchCountOp] at hall

theorem matchCount_zero_forces_ordinal_zero_witness :
    ([PanelOp.updateMatchCount 0 true].all isMatchCountOp = true) ∧
    (runOps [PanelOp.updateMatchCount 0 true]).active_match_ordinal_ = 0 :=
  ⟨by decide,
    matchCount_zero_forces_ordinal_zero [PanelOp.updateMatchCount 0 true]
      (by decide) (by decide)⟩

/-- C4 counterexample: the one-operation sequence `UpdateMatchCount(5, true)`
— an operation named by the claim — reaches a state with `match_count_ = 5 > 0`
in which the previous button is still disabled: `UpdateMatchCount` does not
touch button enablement, only `UpdateResultLabel` does. -/
theorem buttons_lag_behind_matchCount :
    0 < (runOps [PanelOp.updateMatchCount 5 true]).match_count_ ∧
    (runOps [PanelOp.updateMatchCount 5 true]).prevEnabled = false ∧
    (runOps [PanelOp.updateMatchCount 5 true]).nextEnabled = false := by
  decide

/-- C4 (amended): immediately after any `UpdateResultLabel` call — including
the one performed by the empty-text change handler — the previous and next
buttons are enabled iff `match_count_ > 0`; a bare `UpdateMatchCount` or
`UpdateActiveMatchOrdinal` call leaves enablement unchanged, so the
equivalence is only restored at the next `UpdateResultLabel`. -/
theorem buttons_enabled_iff_matches_after_label_update (s : PanelState) :
    ((UpdateResultLabel s).prevEnabled = true ↔
        0 < (UpdateResultLabel s).match_count_) ∧
    ((UpdateResultLabel s).nextEnabled = true ↔
        0 < (UpdateResultLabel s).match_count_) ∧
    ((ContentsChanged s "").1.prevEnabled = true ↔
        0 < (ContentsChanged s "").1.match_count_) ∧
    ((ContentsChanged s "").1.nextEnabled = true ↔
        0 < (ContentsChanged s "").1.match_count_) ∧
    (∀ (n : Int) (f : Bool),
        (UpdateMatchCount s n f).prevEnabled = s.prevEnabled ∧
        (UpdateMatchCount s n f).nextEnabled = s.nextEnabled) ∧
    (∀ m : Int,
        (UpdateActiveMatchOrdinal s m).prevEnabled = s.prevEnabled ∧
        (UpdateActiveMatchOrdinal s m).nextEnabled = s.nextEnabled) := by
  have base : ∀ t : PanelState,
      ((UpdateResultLabel t).prevEnabled = true ↔
          0 < (UpdateResultLabel t).match_count_) ∧
      ((UpdateResultLabel t).nextEnabled = true ↔
          0 < (UpdateResultLabel t).match_count_) := by
    intro t
    rw [updateResultLabel_match_count t, (updateResultLabel_buttons t).1,
      (updateResultLabel_buttons t).2]
    simp
  refine ⟨(base s).1, (base s).2, ?_, ?_,
    fun n f => updateMatchCount_buttons s n f,
    fun m => updateActiveMatchOrdinal_buttons s m⟩
  · rw [contentsChanged_empty s]
    exact (base _).1
  · rw [contentsChanged_empty s]
    exact (base _).2

/-- An `UpdateMatchCount(n, f)` call that passes both input filters in the
code and is therefore stored. -/
def acceptedUpdate (s : PanelState) (n : Int) (f : Bool) : Prop :=
  0 ≤ n ∧ ¬(0 < s.match_count_ ∧ n = 1 ∧ f = false)

/-- C8: every accepted `UpdateMatchCount` update recomputes the label's
visual style: the "match found" style (white background, light gray text)
when the search text is empty or the stored count is positive, otherwise the
"no match" style (red-tinted background, black text) together with exactly
one audible alert. -/
theorem accepted_update_sets_style (s : PanelState) (n : Int) (f : Bool)
    (h : acceptedUpdate s n f) :
    ((s.searchText = "" ∨ 0 < n) →
      ((UpdateMatchCount s n f).labelBackground = some kBackgroundColorMatch ∧
        (UpdateMatchCount s n f).labelColor = kTextColorMatchCount ∧
        (UpdateMatchCount s n f).beeps = s.beeps)) ∧
    (¬(s.searchText = "" ∨ 0 < n) →
      ((UpdateMatchCount s n f).labelBackground =
          some kBackgroundColorNoMatch ∧
        (UpdateMatchCount s n f).labelColor = kTextColorNoMatch ∧
        (UpdateMatchCount s n f).beeps = s.beeps + 1)) := by
  obtain ⟨h0, h1⟩ := h
  have hiff : (s.searchText.isEmpty = true ∨ 0 < n) ↔
      (s.searchText = "" ∨ 0 < n) :=
    or_congr_left (String.isEmpty_iff s.searchText)
  rw [updateMatchCount_accepted_eq s n f (by omega) h1]
  constructor
  · intro hc
    rw [if_pos (hiff.mpr hc)]
    exact ⟨rfl, rfl, rfl⟩
  · intro hc
    rw [if_neg (fun hx => hc (hiff.mp hx))]
    exact ⟨rfl, rfl, rfl⟩

/-- A state in which the user has typed a query. -/
def stateWithQuery : PanelState := { initState with searchText := "x" }

theorem accepted_update_sets_style_witness :
    (0 ≤ (0 : Int) ∧
      ¬(0 < stateWithQuery.match_count_ ∧ (0 : Int) = 1 ∧ true = false)) ∧
    ¬(stateWithQuery.searchText = "" ∨ (0 : Int) < 0) ∧
    ((UpdateMatchCount stateWithQuery 0 true).labelBackground =
        some kBackgroundColorNoMatch ∧
      (UpdateMatchCount stateWithQuery 0 true).labelColor = kTextColorNoMatch ∧
      (UpdateMatchCount stateWithQuery 0 true).beeps =
        stateWithQuery.beeps + 1) :=
  ⟨⟨by decide, by decide⟩, by decide,
    (accepted_update_sets_style stateWithQuery 0 true
      ⟨by decide, by decide⟩).2 (by decide)⟩

/-- C5 counterexample: a state with empty search text but a stale positive
match count — reachable, since a final `UpdateMatchCount(5, *)` callback may
arrive while the box is empty — on which `UpdateResultLabel` clears the label
but *enables* both navigation buttons: enablement is computed from
`match_count_ > 0` with no regard to the text being empty. -/
theorem empty_text_buttons_not_always_disabled :
    (runOps [PanelOp.updateMatchCount 5 true]).searchText = "" ∧
    (UpdateResultLabel
        (runOps [PanelOp.updateMatchCount 5 true])).labelText = "" ∧
    (UpdateResultLabel
        (runOps [PanelOp.updateMatchCount 5 true])).prevEnabled = true ∧
    (UpdateResultLabel
        (runOps [PanelOp.updateMatchCount 5 true])).nextEnabled = true := by
  decide

/-- C5 (amended): `UpdateResultLabel` with empty search text clears the label
and resets it to the default "match found" style, and with non-empty text
renders the localized "`ordinal` of `matchCount`" label; in both cases the
navigation buttons end up enabled iff `match_count_ > 0` (so they are
disabled for empty text only when no stale positive count is stored). -/
theorem updateResultLabel_renders_label (s : PanelState) :
    ((UpdateResultLabel s).prevEnabled = true ↔ 0 < s.match_count_) ∧
    ((UpdateResultLabel s).nextEnabled = true ↔ 0 < s.match_count_) ∧
    (s.searchText = "" →
      ((UpdateResultLabel s).labelText = "" ∧
        (UpdateResultLabel s).labelBackground = some kBackgroundColorMatch ∧
        (UpdateResultLabel s).labelColor = kTextColorMatchCount)) ∧
    (s.searchText ≠ "" →
      (UpdateResultLabel s).labelText =
        GetStringF_FIND_IN_PAGE_COUNT (IntToWString s.active_match_ordinal_)
          (IntToWString s.match_count_)) := by
  refine ⟨?_, ?_, fun he => ?_, fun hne => ?_⟩
  · rw [(updateResultLabel_buttons s).1]
    simp
  · rw [(updateResultLabel_buttons s).2]
    simp
  · rw [updateResultLabel_eq, if_neg (by rw [he]; decide)]
    exact ⟨rfl, rfl, rfl⟩
  · rw [updateResultLabel_eq, if_pos (length_pos_of_ne_empty _ hne)]

/-- The spec's example state: 3 matches, the 2nd one active, non-empty
query. -/
def stateTwoOfThree : PanelState :=
  { initState with
      searchText := "abc"
      match_count_ := 3
      active_match_ordinal_ := 2 }

theorem updateResultLabel_renders_label_witness :
    (initState.searchText = "" ∧
      ((UpdateResultLabel initState).labelText = "" ∧
        (UpdateResultLabel initState).labelBackground =
          some kBackgroundColorMatch ∧
        (UpdateResultLabel initState).labelColor = kTextColorMatchCount)) ∧
    (stateTwoOfThree.searchText ≠ "" ∧
      (UpdateResultLabel stateTwoOfThree).labelText = "2 of 3") :=
  ⟨⟨rfl, (updateResultLabel_renders_label initState).2.2.1 rfl⟩,
    ⟨by decide, by
      rw [(updateResultLabel_renders_label stateTwoOfThree).2.2.2 (by decide)]
      decide⟩⟩

/-- C6: changing the text box contents to the empty string performs, in
order, a final match-count reset to 0, one label reset, exactly one
`StopFinding(true)` call and one `set_find_string("")` call on the
controller, and never a `StartFinding`; changing the contents to a non-empty
string sets it on the controller and requests exactly one forward search
start. -/
theorem contentsChanged_dispatch (s : PanelState) :
    ((ContentsChanged s "").1 =
        UpdateResultLabel
          (UpdateMatchCount { s with searchText := "" } 0 true) ∧
      (ContentsChanged s "").1.match_count_ = 0 ∧
      (ContentsChanged s "").1.labelText = "" ∧
      (ContentsChanged s "").2 =
        [ControllerCall.stopFinding true, ControllerCall.setFindString ""] ∧
      (∀ b : Bool, ControllerCall.startFinding b ∉ (ContentsChanged s "").2)) ∧
    (∀ t : String, t ≠ "" →
      ContentsChanged s t =
        ({ s with searchText := t },
          [ControllerCall.setFindString t,
            ControllerCall.startFinding true])) := by
  have hmc : (UpdateMatchCount { s with searchText := "" } 0 true).match_count_
      = 0 := by
    rw [updateMatchCount_accepted_eq _ 0 true (by omega) (by simp)]
    split <;> rfl
  have hst : (UpdateMatchCount { s with searchText := "" } 0 true).searchText
      = "" := by
    rw [updateMatchCount_accepted_eq _ 0 true (by omega) (by simp)]
    split <;> rfl
  refine ⟨⟨?_, ?_, ?_, ?_, ?_⟩, fun t ht => contentsChanged_nonempty s t ht⟩
  · rw [contentsChanged_empty s]
  · rw [contentsChanged_empty s]
    rw [updateResultLabel_match_count]
    exact hmc
  · rw [contentsChanged_empty s]
    rw [updateResultLabel_eq, if_neg (by rw [hst]; decide)]
  · rw [contentsChanged_empty s]
  · intro b
    rw [contentsChanged_empty s]
    simp

theorem contentsChanged_dispatch_witness :
    (("a" : String) ≠ "") ∧
    ContentsChanged initState "a" =
      ({ initState with searchText := "a" },
        [ControllerCall.setFindString "a", ControllerCall.startFinding true]) :=
  ⟨by decide, (contentsChanged_dispatch initState).2 "a" (by decide)⟩

/-- Vertical centering `(H - h) / 2` keeps a control of height `h ≤ H` inside
the panel. -/
theorem centerY_bounds (H h : Int) (_h0 : 0 ≤ h) (h1 : h ≤ H) :
    0 ≤ (H - h).tdiv 2 ∧ (H - h).tdiv 2 + h ≤ H := by
  rw [Int.tdiv_eq_ediv (by omega) (by omega)]
  omega

/-- Vertical centering with the one-pixel baseline bias, `(H - h) / 2 + 1`,
keeps a control of height `h < H` inside the panel. -/
theorem centerY_biased_bounds (H h : Int) (_h0 : 0 ≤ h) (h1 : h < H) :
    0 ≤ (H - h).tdiv 2 + 1 ∧ ((H - h).tdiv 2 + 1) + h ≤ H := by
  rw [Int.tdiv_eq_ediv (by omega) (by omega)]
  omega

/-- C7: after `Layout`, in the steady state where the next/previous buttons'
current widths already equal their preferred widths (as after any previous
`Layout` pass), and provided the layout width is at least the sum of the
children's minimum widths plus all fixed margins, the five visible children
are laid out left to right without overlap, all inside the panel, with the
text input starting at the fixed left margin and ending exactly at the
label's left edge (it absorbs all slack width). -/
theorem layout_children_ordered (env : LayoutEnv) (g : PanelGeometry)
    (hnextw : g.nextBtn.w = env.findNextPref.w)
    (hprevw : g.prevBtn.w = env.findPrevPref.w)
    (hcw : 0 ≤ env.closePref.w) (hnw : 0 ≤ env.findNextPref.w)
    (hpw : 0 ≤ env.findPrevPref.w)
    (hslack : sumOfMinWidths env ≤ (GetPreferredSize env).w)
    (hch0 : 0 ≤ env.closePref.h) (hch1 : env.closePref.h ≤ env.panelHeight)
    (hnh0 : 0 ≤ env.findNextPref.h)
    (hnh1 : env.findNextPref.h ≤ env.panelHeight)
    (hph0 : 0 ≤ env.findPrevPref.h)
    (hph1 : env.findPrevPref.h ≤ env.panelHeight)
    (hlh0 : 0 ≤ env.matchCountTextPref.h)
    (hlh1 : env.matchCountTextPref.h < env.panelHeight)
    (hth0 : 0 ≤ env.findTextPref.h)
    (hth1 : env.findTextPref.h < env.panelHeight) :
    (Layout env g).findTextBox.x = kMarginLeftOfFindTextField ∧
    (Layout env g).findTextBox.x + (Layout env g).findTextBox.w =
      (Layout env g).matchCountLabel.x ∧
    (Layout env g).matchCountLabel.x + (Layout env g).matchCountLabel.w ≤
      (Layout env g).prevBtn.x ∧
    (Layout env g).prevBtn.x + (Layout env g).prevBtn.w ≤
      (Layout env g).nextBtn.x ∧
    (Layout env g).nextBtn.x + (Layout env g).nextBtn.w ≤
      (Layout env g).closeBtn.x ∧
    insidePanel (Layout env g).findTextBox (GetPreferredSize env).w
      env.panelHeight ∧
    insidePanel (Layout env g).matchCountLabel (GetPreferredSize env).w
      env.panelHeight ∧
    insidePanel (Layout env g).prevBtn (GetPreferredSize env).w
      env.panelHeight ∧
    insidePanel (Layout env g).nextBtn (GetPreferredSize env).w
      env.panelHeight ∧
    insidePanel (Layout env g).closeBtn (GetPreferredSize env).w
      env.panelHeight := by
  have hdivc := centerY_bounds env.panelHeight env.closePref.h hch0 hch1
  have hdivn := centerY_bounds env.panelHeight env.findNextPref.h hnh0 hnh1
  have hdivp := centerY_bounds env.panelHeight env.findPrevPref.h hph0 hph1
  have hdivl :=
    centerY_biased_bounds env.panelHeight env.matchCountTextPref.h hlh0 hlh1
  have hdivt :=
    centerY_biased_bounds env.panelHeight env.findTextPref.h hth0 hth1
  have hlab : kMatchCountMinWidth ≤ layoutLabelWidth env := le_max_left _ _
  unfold sumOfMinWidths at hslack
  unfold layoutLabelWidth at hlab hslack
  simp only [Layout, GetPreferredSize, insidePanel, insideH, insideV,
    hnextw, hprevw] at *
  unfold kMarginLeftOfFindTextField kWhiteSpaceAfterMatchCountLabel
    kMarginLeftOfCloseButton kMarginRightOfCloseButton kMatchCountMinWidth
    kMatchCountExtraWidth at *
  omega

/-- A concrete realistic layout input: a 32px-high panel, a text field
preferring 200x20, a small label and three 16x16 buttons. -/
def exampleLayoutEnv : LayoutEnv :=
  { panelHeight := 32
    findTextPref := { w := 200, h := 20 }
    matchCountTextPref := { w := 10, h := 16 }
    findPrevPref := { w := 16, h := 16 }
    findNextPref := { w := 16, h := 16 }
    closePref := { w := 16, h := 16 }
    dlgMiddleHeight := 32 }

def zeroRect : Rect := { x := 0, y := 0, w := 0, h := 0 }

/-- The geometry after a first `Layout` pass (so the buttons' current widths
equal their preferred widths). -/
def exampleGeometry : PanelGeometry :=
  Layout exampleLayoutEnv
    { closeBtn := zeroRect, nextBtn := zeroRect, prevBtn := zeroRect
      matchCountLabel := zeroRect, findTextBox := zeroRect
      focusForwarder := zeroRect }

theorem layout_children_ordered_witness :
    (exampleGeometry.nextBtn.w = exampleLayoutEnv.findNextPref.w ∧
      exampleGeometry.prevBtn.w = exampleLayoutEnv.findPrevPref.w ∧
      sumOfMinWidths exampleLayoutEnv ≤
        (GetPreferredSize exampleLayoutEnv).w) ∧
    ((Layout exampleLayoutEnv exampleGeometry).findTextBox.x =
        kMarginLeftOfFindTextField ∧
      (Layout exampleLayoutEnv exampleGeometry).findTextBox.x +
          (Layout exampleLayoutEnv exampleGeometry).findTextBox.w =
        (Layout exampleLayoutEnv exampleGeometry).matchCountLabel.x ∧
      (Layout exampleLayoutEnv exampleGeometry).matchCountLabel.x +
          (Layout exampleLayoutEnv exampleGeometry).matchCountLabel.w ≤
        (Layout exampleLayoutEnv exampleGeometry).prevBtn.x ∧
      (Layout exampleLayoutEnv exampleGeometry).prevBtn.x +
          (Layout exampleLayoutEnv exampleGeometry).prevBtn.w ≤
        (Layout exampleLayoutEnv exampleGeometry).nextBtn.x ∧
      (Layout exampleLayoutEnv exampleGeometry).nextBtn.x +
          (Layout exampleLayoutEnv exampleGeometry).nextBtn.w ≤
        (Layout exampleLayoutEnv exampleGeometry).closeBtn.x ∧
      insidePanel (Layout exampleLayoutEnv exampleGeometry).findTextBox
        (GetPreferredSize exampleLayoutEnv).w exampleLayoutEnv.panelHeight ∧
      insidePanel (Layout exampleLayoutEnv exampleGeometry).matchCountLabel
        (GetPreferredSize exampleLayoutEnv).w exampleLayoutEnv.panelHeight ∧
      insidePanel (Layout exampleLayoutEnv exampleGeometry).prevBtn
        (GetPreferredSize exampleLayoutEnv).w exampleLayoutEnv.panelHeight ∧
      insidePanel (Layout exampleLayoutEnv exampleGeometry).nextBtn
        (GetPreferredSize exampleLayoutEnv).w exampleLayoutEnv.panelHeight ∧
      insidePanel (Layout exampleLayoutEnv exampleGeometry).closeBtn
        (GetPreferredSize exampleLayoutEnv).w exampleLayoutEnv.panelHeight) :=
  ⟨⟨by decide, by decide, by decide⟩,
    layout_children_ordered exampleLayoutEnv exampleGeometry (by decide)
      (by decide) (by decide) (by decide) (by decide) (by decide) (by decide)
      (by decide) (by decide) (by decide) (by decide) (by decide) (by decide)
      (by decide) (by decide) (by decide)⟩


end FindInPageView
